import Mathlib

/-!
Verification of two Ansible F5 modules against their specification:
`bigip_profile_client_ssl.py` and `bigip_sys_global.py`.

The Python code is shallowly embedded: each parameter-container property
becomes a Lean function over an explicit record of the raw `_values`
entries, exceptions become `Except`, and the orchestrator methods become
functions returning an outcome record that also tracks which
device-mutating calls were issued.
-/

namespace F5

/-- Python values that can appear in the module parameter dictionaries:
strings, integers and booleans. -/
inductive Value where
  | str : String → Value
  | int : Int → Value
  | bool : Bool → Value
deriving DecidableEq, Repr

/-- Python `str()` applied to a `Value`. -/
def pyStr : Value → String
  | .str s => s
  | .int n => toString n
  | .bool b => if b then "True" else "False"

instance {ε α : Type} [DecidableEq ε] [DecidableEq α] : DecidableEq (Except ε α)
  | .error a, .error b =>
    if h : a = b then .isTrue (by rw [h])
    else .isFalse (fun hh => h (Except.error.inj hh))
  | .error _, .ok _ => .isFalse (fun hh => Except.noConfusion hh)
  | .ok _, .error _ => .isFalse (fun hh => Except.noConfusion hh)
  | .ok a, .ok b =>
    if h : a = b then .isTrue (by rw [h])
    else .isFalse (fun hh => h (Except.ok.inj hh))

/-- The Python exceptions these modules can raise. -/
inductive PyErr where
  | f5ModuleError : String → PyErr
  | keyError : PyErr
  | typeError : PyErr
deriving DecidableEq, Repr

/-- A deprecation warning record (a `version`/`msg` dict in the source). -/
structure Warning where
  version : String
  msg : String
deriving DecidableEq, Repr

/-- The warning appended by `_get_boolean_like_return_value` on a legacy
`enabled`/`disabled` token. -/
def deprecationWarning : Warning :=
  { version := "2.5"
    msg := "enabled/disabled are deprecated. Use boolean values (true, yes, no, 1, 0) instead." }

/-- Modelled from the spec: `BOOLEANS_TRUE` from
`ansible.module_utils.parsing.convert_bool` is imported by the source but
its file is not under `src/`; the spec lists the conventional truth tokens
as true/yes/1. -/
def booleansTrue : List Value :=
  [.str "yes", .str "true", .str "1", .int 1, .bool true]

/-- Modelled from the spec: `BOOLEANS_FALSE` from
`ansible.module_utils.parsing.convert_bool` is imported by the source but
its file is not under `src/`; the spec lists the conventional false tokens
as false/no/0. -/
def booleansFalse : List Value :=
  [.str "no", .str "false", .str "0", .int 0, .bool false]

/-- `true = list(BOOLEANS_TRUE) + ['True']` in
`ModuleParameters._get_boolean_like_return_value`. -/
def trueTokens : List Value := booleansTrue ++ [.str "True"]

/-- `false = list(BOOLEANS_FALSE) + ['False']` in
`ModuleParameters._get_boolean_like_return_value`. -/
def falseTokens : List Value := booleansFalse ++ [.str "False"]

/-- `ModuleParameters._get_boolean_like_return_value` of
`bigip_sys_global.py`: returns the normalized value together with the
warnings this call appends to `self._values['__warnings']`. -/
def getBooleanLikeReturnValue (v : Option Value) : Option String × List Warning :=
  match v with
  | none => (none, [])
  | some x =>
    let ws := if x = .str "enabled" ∨ x = .str "disabled" then [deprecationWarning] else []
    if x ∈ trueTokens then (some "enabled", ws)
    else if x ∈ falseTokens then (some "disabled", ws)
    else (some (pyStr x), ws)

/-- The `_values` entries of a `bigip_sys_global.py` parameter container
(desired side and device side share the same shape; every entry defaults
to `None` through the `defaultdict`). -/
structure SysParams where
  security_banner : Option Value := none
  banner_text : Option Value := none
  gui_setup : Option Value := none
  lcd_display : Option Value := none
  mgmt_dhcp : Option Value := none
  net_reboot : Option Value := none
  quiet_boot : Option Value := none
  console_timeout : Option Value := none
deriving DecidableEq, Repr

/-- Raw `_values` lookup (`__getattr__` fallback; missing keys give `None`
via the `defaultdict`).  `ApiParameters` of `bigip_sys_global.py` defines
no properties, so this is also its attribute access. -/
def sysField (p : SysParams) : String → Option Value
  | "security_banner" => p.security_banner
  | "banner_text" => p.banner_text
  | "gui_setup" => p.gui_setup
  | "lcd_display" => p.lcd_display
  | "mgmt_dhcp" => p.mgmt_dhcp
  | "net_reboot" => p.net_reboot
  | "quiet_boot" => p.quiet_boot
  | "console_timeout" => p.console_timeout
  | _ => none

/-- The fields whose `ModuleParameters` property calls
`_get_boolean_like_return_value` (`security_banner`, `banner_text`,
`gui_setup`, `lcd_display`, `mgmt_dhcp`, `net_reboot`, `quiet_boot`). -/
def sysBoolLikeFields : List String :=
  ["security_banner", "banner_text", "gui_setup", "lcd_display",
   "mgmt_dhcp", "net_reboot", "quiet_boot"]

/-- `getattr(want, k)` on `bigip_sys_global.ModuleParameters`: the seven
boolean-like properties normalize through
`_get_boolean_like_return_value` (also returning the warnings that call
appends); every other attribute falls back to the raw value. -/
def sysWantAttr (w : SysParams) (k : String) : Option Value × List Warning :=
  if k ∈ sysBoolLikeFields then
    let r := getBooleanLikeReturnValue (sysField w k)
    (r.1.map Value.str, r.2)
  else (sysField w k, [])

/-- `Parameters.updatables` of `bigip_sys_global.py`. -/
def sysUpdatables : List String :=
  ["security_banner", "banner_text", "gui_setup", "lcd_display",
   "mgmt_dhcp", "net_reboot", "quiet_boot", "console_timeout"]

/-- The friendly-name targets of `Parameters.api_attributes` of
`bigip_sys_global.py`, in `api_params` iteration order (each API name is
translated through `api_map`). -/
def sysApiAttrFields : List String :=
  ["security_banner", "banner_text", "gui_setup", "lcd_display",
   "mgmt_dhcp", "net_reboot", "quiet_boot", "console_timeout"]

/-- The loop body of `ModuleManager._update_changed_options` of
`bigip_sys_global.py` over a list of parameter names: the `Difference`
class there defines no per-field property, so `compare` always falls to
`__default`, which returns the desired value when it differs from the
current one.  Returns the `changed` dict (as an ordered association
list) and the warnings appended to `want._values['__warnings']` while
evaluating the desired-side properties. -/
def sysCollect (w h : SysParams) : List String → List (String × Value) × List Warning
  | [] => ([], [])
  | k :: ks =>
    let a := sysWantAttr w k
    let hv := sysField h k
    let c : Option (String × Value) := if a.1 = hv then none else a.1.map (fun v => (k, v))
    let rest := sysCollect w h ks
    (match c with
     | none => rest.1
     | some p => p :: rest.1, a.2 ++ rest.2)

/-- `ModuleManager._update_changed_options` of `bigip_sys_global.py`. -/
def sysUpdateChangedOptions (w h : SysParams) : List (String × Value) × List Warning :=
  sysCollect w h sysUpdatables

/-- The warnings appended to `want._values['__warnings']` by
`want.api_params()` (`ModuleManager.update_on_device`), which re-evaluates
every mapped desired-side property in `api_attributes` order. -/
def sysApiParamsWarnings (w : SysParams) : List Warning :=
  (sysApiAttrFields.map (fun k => (sysWantAttr w k).2)).flatten

/-- A value of the result dict assembled by `exec_module`: a field value,
the `changed` flag, or a `__warnings` list (never actually inserted by
this module's `to_return`). -/
inductive ResVal where
  | val : Value → ResVal
  | flag : Bool → ResVal
  | warnings : List Warning → ResVal
deriving DecidableEq, Repr

/-- `ModuleManager._announce_deprecations`: `result.pop('__warnings', [])`
and a `module.deprecate` call per popped entry; returns the warnings that
get surfaced through the deprecation side channel. -/
def announceDeprecations (result : List (String × ResVal)) : List Warning :=
  match result.lookup "__warnings" with
  | some (.warnings ws) => ws
  | _ => []

/-- Outcome of `ModuleManager.exec_module` of `bigip_sys_global.py`. -/
structure SysOutcome where
  /-- the `changed` flag of the returned result -/
  changed : Bool
  /-- the assembled result dict: reportable changed fields plus `changed` -/
  resultDict : List (String × ResVal)
  /-- warnings surfaced through `module.deprecate` -/
  deprecationsEmitted : List Warning
  /-- whether `update_on_device` issued `resource.modify` -/
  modifyCalled : Bool
  /-- warnings accumulated in `want._values['__warnings']` over the run -/
  wantWarnings : List Warning
deriving DecidableEq, Repr

/-- `ModuleManager.exec_module` of `bigip_sys_global.py` (state is always
`present`, which delegates to `update`): diff desired against current,
modify the device only when something changed and check mode is off,
assemble the result from `Changes.to_return` (which iterates only
`returnables`, so `__warnings` is never in the result), and run
`_announce_deprecations` on it. -/
def sysExecModule (checkMode : Bool) (w h : SysParams) : SysOutcome :=
  let d := sysUpdateChangedOptions w h
  let changed := !d.1.isEmpty
  let modify := changed && !checkMode
  let ws2 := if modify then sysApiParamsWarnings w else []
  let resultDict := d.1.map (fun p => (p.1, ResVal.val p.2)) ++ [("changed", ResVal.flag changed)]
  { changed := changed
    resultDict := resultDict
    deprecationsEmitted := announceDeprecations resultDict
    modifyCalled := modify
    wantWarnings := d.2 ++ ws2 }

/-! ## `bigip_profile_client_ssl.py` -/

/-- Python `s.startswith(p)`. -/
def pyStartsWith (s p : String) : Bool := p.toList.isPrefixOf s.toList

/-- Python `s.endswith(p)`. -/
def pyEndsWith (s p : String) : Bool := p.toList.isSuffixOf s.toList

/-- `ModuleParameters._fqdn_name` on a non-`None` value: qualify a bare
name with the partition. -/
def fqdnName (partition v : String) : String :=
  if pyStartsWith v "/" then v else "/" ++ partition ++ "/" ++ v

/-- `ModuleParameters._key_filename`. -/
def keyFilename (n : String) : String :=
  if pyEndsWith n ".key" then n else n ++ ".key"

/-- `ModuleParameters._cert_filename`. -/
def certFilename (n : String) : String :=
  if pyEndsWith n ".crt" then n else n ++ ".crt"

/-- `os.path.basename`: the part after the last slash. -/
def basename (s : String) : String :=
  String.mk ((s.toList.reverse.takeWhile (fun c => c ≠ '/')).reverse)

/-- The root part of `os.path.splitext`: split at the last dot, unless
every character before it is itself a dot (Python keeps leading dots of
the basename attached). -/
def splitextRoot (s : String) : String :=
  let cs := s.toList
  match (cs.enum.filter (fun p => p.2 = '.')).getLast? with
  | none => s
  | some q =>
    if (cs.take q.1).any (fun c => c ≠ '.') then String.mk (cs.take q.1) else s

/-- One raw entry of the user-supplied `cert_key_chain` list; `none`
means the key is absent from the dict. -/
structure Item where
  cert : Option String := none
  key : Option String := none
  chain : Option String := none
  passphrase : Option String := none
deriving DecidableEq, Repr

/-- One raw entry of the device-reported `certKeyChain` list
(`ApiParameters.cert_key_chain` reads `item['name']` unconditionally). -/
structure ApiItem where
  name : String
  cert : Option String := none
  key : Option String := none
  chain : Option String := none
  passphrase : Option String := none
deriving DecidableEq, Repr

/-- A normalized bundle dict as built by either `cert_key_chain`
property; `none` fields are absent from the dict. -/
structure Bundle where
  name : String
  cert : Option String := none
  key : Option String := none
  chain : Option String := none
  passphrase : Option String := none
deriving DecidableEq, Repr

/-- `ModuleParameters._get_chain_value`. -/
def getChainValue (partition : String) (it : Item) : String :=
  match it.chain with
  | none => "none"
  | some c => if c = "none" then "none" else certFilename (fqdnName partition c)

/-- The per-item body of the `ModuleParameters.cert_key_chain` loop:
`key` without `cert` (and vice versa) raise an `F5ModuleError`; an item
with neither raises a `KeyError` at `item['key']`. -/
def deriveItem (partition : String) (it : Item) : Except PyErr Bundle :=
  match it.key, it.cert with
  | some _, none =>
    .error (.f5ModuleError "When providing a 'key', you must also provide a 'cert'")
  | none, some _ =>
    .error (.f5ModuleError "When providing a 'cert', you must also provide a 'key'")
  | none, none => .error .keyError
  | some k, some c =>
    let key := keyFilename k
    let cert := certFilename c
    let chain := getChainValue partition it
    let name := basename cert
    let filename := splitextRoot name
    .ok { name := filename
          cert := some (fqdnName partition cert)
          key := some (fqdnName partition key)
          chain := some chain
          passphrase := it.passphrase }

/-- The `ModuleParameters.cert_key_chain` loop over all items (the first
failing item aborts the whole property). -/
def certKeyChainDerive (partition : String) : List Item → Except PyErr (List Bundle)
  | [] => .ok []
  | it :: rest =>
    match deriveItem partition it with
    | .error e => .error e
    | .ok b =>
      match certKeyChainDerive partition rest with
      | .error e => .error e
      | .ok bs => .ok (b :: bs)

/-- Stable insertion into a name-sorted bundle list. -/
def insertByName (b : Bundle) : List Bundle → List Bundle
  | [] => [b]
  | c :: cs => if b.name ≤ c.name then b :: c :: cs else c :: insertByName b cs

/-- `sorted(result, key=lambda x: x['name'])`: stable sort by name. -/
def sortByName : List Bundle → List Bundle
  | [] => []
  | b :: bs => insertByName b (sortByName bs)

/-- The `_values` entries of `ModuleParameters` of
`bigip_profile_client_ssl.py` that the claims touch. -/
structure ModuleParams where
  partition : String := "Common"
  parent : Option String := none
  ciphers : Option String := none
  cert_key_chain : Option (List Item) := none
  ocsp_stapling : Option Value := none
deriving DecidableEq, Repr

/-- The `_values` entries of `ApiParameters` of
`bigip_profile_client_ssl.py` (raw device attributes after `api_map`
translation). -/
structure ApiParams where
  parent : Option String := none
  ciphers : Option String := none
  cert_key_chain : Option (List ApiItem) := none
  ocsp_stapling : Option Value := none
deriving DecidableEq, Repr

/-- `ModuleParameters.parent`. -/
def moduleParent (w : ModuleParams) : Option String :=
  w.parent.map (fqdnName w.partition)

/-- `ModuleParameters.cert_key_chain`. -/
def moduleCertKeyChain (w : ModuleParams) : Except PyErr (Option (List Bundle)) :=
  match w.cert_key_chain with
  | none => .ok none
  | some items =>
    match certKeyChainDerive w.partition items with
    | .error e => .error e
    | .ok bs => .ok (some (sortByName bs))

/-- The per-item body of `ApiParameters.cert_key_chain`: keep `name` and
whichever of `cert`/`key`/`chain`/`passphrase` are present. -/
def apiBundle (it : ApiItem) : Bundle :=
  { name := it.name, cert := it.cert, key := it.key
    chain := it.chain, passphrase := it.passphrase }

/-- `ApiParameters.cert_key_chain`. -/
def apiCertKeyChain (h : ApiParams) : Option (List Bundle) :=
  h.cert_key_chain.map (fun items => sortByName (items.map apiBundle))

/-- The `iteritems` view of one bundle dict, as stringified pairs
(insertion order: `name`, `cert`, `key`, `chain`, `passphrase`). -/
def bundlePairs (b : Bundle) : List (String × String) :=
  [("name", b.name)]
    ++ (match b.cert with | some v => [("cert", v)] | none => [])
    ++ (match b.key with | some v => [("key", v)] | none => [])
    ++ (match b.chain with | some v => [("chain", v)] | none => [])
    ++ (match b.passphrase with | some v => [("passphrase", v)] | none => [])

/-- `Difference.to_tuple`. -/
def toTuple (items : List Bundle) : List (String × String) :=
  (items.map bundlePairs).flatten

/-- `set(w).issubset(set(h))`. -/
def subsetPairs (w h : List (String × String)) : Bool :=
  w.all (fun p => decide (p ∈ h))

/-- `Difference._diff_complex_items`: iterating an absent (`None`)
current value in `to_tuple` raises a `TypeError`. -/
def diffComplexItems (want hv : Option (List Bundle)) :
    Except PyErr (Option (List Bundle)) :=
  if want = some [] ∧ hv = none then .ok none
  else if want = none then .ok none
  else match want, hv with
  | some w, some h =>
    if subsetPairs (toTuple w) (toTuple h) then .ok none else .ok (some w)
  | some _, none => .error .typeError
  | none, _ => .ok none

/-- A value stored in the `changed` dict or in a device payload. -/
inductive PayloadVal where
  | str : String → PayloadVal
  | bundles : List Bundle → PayloadVal
  | val : Value → PayloadVal
deriving DecidableEq, Repr

/-- `getattr(want, k)` on `bigip_profile_client_ssl.ModuleParameters`:
dispatch to the defined properties, raw `_values` fallback otherwise
(missing keys give `None`). -/
def wantAttr (w : ModuleParams) (k : String) : Except PyErr (Option PayloadVal) :=
  if k = "parent" then .ok ((moduleParent w).map .str)
  else if k = "ciphers" then .ok (w.ciphers.map .str)
  else if k = "cert_key_chain" then
    match moduleCertKeyChain w with
    | .error e => .error e
    | .ok o => .ok (o.map .bundles)
  else if k = "ocsp_stapling" then .ok (w.ocsp_stapling.map .val)
  else .ok none

/-- `getattr(have, k)` on `bigip_profile_client_ssl.ApiParameters`. -/
def haveAttr (h : ApiParams) (k : String) : Option PayloadVal :=
  if k = "parent" then h.parent.map .str
  else if k = "ciphers" then h.ciphers.map .str
  else if k = "cert_key_chain" then (apiCertKeyChain h).map .bundles
  else if k = "ocsp_stapling" then h.ocsp_stapling.map .val
  else none

/-- `Parameters.updatables` of `bigip_profile_client_ssl.py`. -/
def updatables : List String := ["ciphers", "cert_key_chain", "ocsp_stapling"]

/-- `Difference.compare` of `bigip_profile_client_ssl.py`: the `parent`
and `cert_key_chain` properties exist on `Difference`; everything else
falls to `__default` (desired value when it differs, else `None`). -/
def diffCompare (w : ModuleParams) (h : ApiParams) (k : String) :
    Except PyErr (Option PayloadVal) :=
  if k = "parent" then
    if moduleParent w ≠ h.parent then
      .error (.f5ModuleError "The parent profile cannot be changed")
    else .ok none
  else if k = "cert_key_chain" then
    match moduleCertKeyChain w with
    | .error e => .error e
    | .ok wv =>
      match diffComplexItems wv (apiCertKeyChain h) with
      | .error e => .error e
      | .ok d => .ok (d.map .bundles)
  else
    match wantAttr w k with
    | .error e => .error e
    | .ok wv => .ok (if wv = haveAttr h k then none else wv)

/-- The loop of `ModuleManager._update_changed_options` of
`bigip_profile_client_ssl.py` over a list of parameter names, building
the `changed` dict in iteration order. -/
def collectChanges (w : ModuleParams) (h : ApiParams) :
    List String → Except PyErr (List (String × PayloadVal))
  | [] => .ok []
  | k :: ks =>
    match diffCompare w h k with
    | .error e => .error e
    | .ok c =>
      match collectChanges w h ks with
      | .error e => .error e
      | .ok rest =>
        match c with
        | none => .ok rest
        | some v => .ok ((k, v) :: rest)

/-- `ModuleManager._update_changed_options` of
`bigip_profile_client_ssl.py`. -/
def updateChangedOptions (w : ModuleParams) (h : ApiParams) :
    Except PyErr (List (String × PayloadVal)) :=
  collectChanges w h updatables

/-- Outcome of `ModuleManager.update` of `bigip_profile_client_ssl.py`:
the returned `changed` flag (or the propagated exception) plus whether
`update_on_device` issued `resource.modify`. -/
structure RunOutcome where
  result : Except PyErr Bool
  modifyCalled : Bool
deriving DecidableEq, Repr

/-- `ModuleManager.update` of `bigip_profile_client_ssl.py` (after
`read_current_from_device` produced `h`): no modify when nothing
changed or in check mode. -/
def updateRun (checkMode : Bool) (w : ModuleParams) (h : ApiParams) : RunOutcome :=
  match updateChangedOptions w h with
  | .error e => { result := .error e, modifyCalled := false }
  | .ok changes =>
    if changes.isEmpty then { result := .ok false, modifyCalled := false }
    else if checkMode then { result := .ok true, modifyCalled := false }
    else { result := .ok true, modifyCalled := true }

/-- `Parameters.api_params` on the desired parameters
(`api_attributes = ['ciphers', 'certKeyChain', 'ocspStapling']`, mapped
names resolved through the properties, `None` values filtered out). -/
def apiParams (w : ModuleParams) : Except PyErr (List (String × PayloadVal)) :=
  match moduleCertKeyChain w with
  | .error e => .error e
  | .ok ckc =>
    .ok (([("ciphers", w.ciphers.map PayloadVal.str),
           ("certKeyChain", ckc.map PayloadVal.bundles),
           ("ocspStapling", w.ocsp_stapling.map PayloadVal.val)] :
            List (String × Option PayloadVal)).filterMap
          (fun q => q.2.map (fun v => (q.1, v))))

/-- Outcome of `ModuleManager.create` of `bigip_profile_client_ssl.py`:
the returned flag (or exception) and the payload handed to the device's
create call (`none` when no create call was issued). -/
structure CreateOutcome where
  result : Except PyErr Bool
  payload : Option (List (String × PayloadVal))
deriving DecidableEq, Repr

/-- `ModuleManager.create` of `bigip_profile_client_ssl.py`: default the
ciphers to `DEFAULT` when unset, short-circuit in check mode, else send
`want.api_params()` to the device's create call. -/
def createRun (checkMode : Bool) (w : ModuleParams) : CreateOutcome :=
  let w' := if w.ciphers = none then { w with ciphers := some "DEFAULT" } else w
  if checkMode then { result := .ok true, payload := none }
  else match apiParams w' with
  | .error e => { result := .error e, payload := none }
  | .ok p => { result := .ok true, payload := some p }

end F5

namespace F5

/-! ## Helper lemmas -/

/-- Every pair list is a subset of itself. -/
theorem subsetPairs_refl (w : List (String × String)) : subsetPairs w w = true := by
  simp only [subsetPairs, List.all_eq_true, decide_eq_true_eq]
  exact fun p hp => hp

/-- Diffing a complex value against an identical current value reports no
change. -/
theorem diffComplexItems_self (o : Option (List Bundle)) :
    diffComplexItems o o = .ok none := by
  cases o with
  | none => rfl
  | some l => simp [diffComplexItems, subsetPairs_refl]

/-- `List.lookup` misses when no key of the list equals the probe. -/
theorem lookup_eq_none {β : Type} (key : String) (l : List (String × β))
    (h : ∀ p ∈ l, p.1 ≠ key) : l.lookup key = none := by
  induction l with
  | nil => rfl
  | cons a l ih =>
    obtain ⟨k, v⟩ := a
    have hk : k ≠ key := h (k, v) (List.mem_cons_self _ _)
    simp only [List.lookup, beq_eq_false_iff_ne.mpr (Ne.symm hk)]
    exact ih (fun p hp => h p (List.mem_cons_of_mem _ hp))

/-- Every key of the `changed` dict built by `sysCollect` comes from the
iterated parameter-name list. -/
theorem sysCollect_keys (w h : SysParams) (ks : List String) :
    ∀ p ∈ (sysCollect w h ks).1, p.1 ∈ ks := by
  induction ks with
  | nil => intro p hp; simp [sysCollect] at hp
  | cons k ks ih =>
    intro p hp
    simp only [sysCollect] at hp
    by_cases hcond : (sysWantAttr w k).1 = sysField h k
    · rw [if_pos hcond] at hp
      exact List.mem_cons_of_mem _ (ih p hp)
    · rw [if_neg hcond] at hp
      cases hw : (sysWantAttr w k).1 with
      | none =>
        rw [hw] at hp
        exact List.mem_cons_of_mem _ (ih p hp)
      | some v =>
        rw [hw] at hp
        rcases List.mem_cons.mp hp with rfl | hmem
        · exact List.mem_cons_self _ _
        · exact List.mem_cons_of_mem _ (ih p hmem)

/-- The result dict assembled by `bigip_sys_global`'s `exec_module`, made
explicit. -/
theorem sysResultDict_eq (cm : Bool) (w h : SysParams) :
    (sysExecModule cm w h).resultDict =
      (sysUpdateChangedOptions w h).1.map (fun p => (p.1, ResVal.val p.2))
        ++ [("changed", ResVal.flag (!(sysUpdateChangedOptions w h).1.isEmpty))] := rfl

/-- The result dict of `bigip_sys_global`'s `exec_module` never carries a
`__warnings` entry. -/
theorem sysResultDict_no_warnings (cm : Bool) (w h : SysParams) :
    (sysExecModule cm w h).resultDict.lookup "__warnings" = none := by
  rw [sysResultDict_eq]
  apply lookup_eq_none
  intro p hp
  rcases List.mem_append.mp hp with hp | hp
  · obtain ⟨q, hq, rfl⟩ := List.mem_map.mp hp
    intro hEq
    have hmem := sysCollect_keys w h sysUpdatables q hq
    rw [show ((fun p => (p.1, ResVal.val p.2)) q).1 = q.1 from rfl] at hEq
    rw [hEq] at hmem
    simp [sysUpdatables] at hmem
  · rw [List.mem_singleton.mp hp]
    have hne : ("changed" : String) ≠ "__warnings" := by decide
    exact hne

/-- `_announce_deprecations` of `bigip_sys_global` never emits anything:
the result it pops from has no `__warnings` entry. -/
theorem sysDeprecations_nil (cm : Bool) (w h : SysParams) :
    (sysExecModule cm w h).deprecationsEmitted = [] := by
  have h1 : (sysExecModule cm w h).deprecationsEmitted =
      announceDeprecations (sysExecModule cm w h).resultDict := rfl
  rw [h1, announceDeprecations, sysResultDict_no_warnings cm w h]

/-! ## Claims -/

/-- C3: the bundle comparison returns no change when the desired list is
empty and the current value is absent; otherwise both sides are
flattened into (field, value) string pairs and compared as sets: a
desired subset of current reports no change, anything else reports the
entire desired list (full replacement). -/
theorem diff_complex_items_is_subset_replacement :
    diffComplexItems (some []) none = .ok none
    ∧ (∀ w h : List Bundle, subsetPairs (toTuple w) (toTuple h) = true →
        diffComplexItems (some w) (some h) = .ok none)
    ∧ (∀ w h : List Bundle, subsetPairs (toTuple w) (toTuple h) = false →
        diffComplexItems (some w) (some h) = .ok (some w)) := by
  refine ⟨by decide, ?_, ?_⟩
  · intro w h hs
    simp [diffComplexItems, hs]
  · intro w h hs
    simp [diffComplexItems, hs]

/-- C3 witness: the spec's scenario, desired `[{cert: "a", key: "a"}]`
expanded versus current
`[{name: "a", cert: "/Common/a.crt", key: "/Common/a.key", chain: "none"}]`:
the expanded desired pairs are a subset of the current pairs, so diffing
reports no change. -/
theorem diff_complex_items_subset_scenario :
    moduleCertKeyChain { cert_key_chain := some [{ cert := some "a", key := some "a" }] } =
      .ok (some [{ name := "a", cert := some "/Common/a.crt", key := some "/Common/a.key",
                   chain := some "none" }])
    ∧ subsetPairs
        (toTuple [{ name := "a", cert := some "/Common/a.crt", key := some "/Common/a.key",
                    chain := some "none" }])
        (toTuple [{ name := "a", cert := some "/Common/a.crt", key := some "/Common/a.key",
                    chain := some "none" }]) = true
    ∧ diffComplexItems
        (some [{ name := "a", cert := some "/Common/a.crt", key := some "/Common/a.key",
                 chain := some "none" }])
        (some [{ name := "a", cert := some "/Common/a.crt", key := some "/Common/a.key",
                 chain := some "none" }]) = .ok none :=
  ⟨by decide, by decide,
    diff_complex_items_is_subset_replacement.2.1 _ _ (by decide)⟩

/-- C4: every listed boolean-like token normalizes to exactly `enabled`
or `disabled` (truth-like to `enabled`, false-like to `disabled`, the
legacy literals to themselves); any other non-null value is returned as
its string form, and a null input stays null. -/
theorem boolean_like_normalization (v : Value) :
    ((∀ t ∈ trueTokens, (getBooleanLikeReturnValue (some t)).1 = some "enabled")
     ∧ (∀ t ∈ falseTokens, (getBooleanLikeReturnValue (some t)).1 = some "disabled")
     ∧ (getBooleanLikeReturnValue (some (.str "enabled"))).1 = some "enabled"
     ∧ (getBooleanLikeReturnValue (some (.str "disabled"))).1 = some "disabled"
     ∧ (getBooleanLikeReturnValue none).1 = none)
    ∧ (v ∉ trueTokens → v ∉ falseTokens →
        (getBooleanLikeReturnValue (some v)).1 = some (pyStr v)) := by
  constructor
  · exact ⟨by decide, by decide, by decide, by decide, rfl⟩
  · intro h1 h2
    simp [getBooleanLikeReturnValue, h1, h2]

/-- C4 witness: the free-form string `banner` is in neither token list
and passes through as its string form. -/
theorem boolean_like_normalization_witness :
    (Value.str "banner") ∉ trueTokens ∧ (Value.str "banner") ∉ falseTokens
    ∧ (getBooleanLikeReturnValue (some (.str "banner"))).1 = some (pyStr (.str "banner")) :=
  ⟨by decide, by decide,
    (boolean_like_normalization (.str "banner")).2 (by decide) (by decide)⟩

/-- C10 counterexample: the bundle comparison is not total — a non-empty
desired list with an absent (`None`) current value makes `to_tuple`
iterate `None`, a `TypeError`. -/
theorem diff_complex_items_not_total :
    diffComplexItems
      (some [{ name := "a", cert := some "/Common/a.crt", key := some "/Common/a.key",
               chain := some "none" }]) none = .error .typeError := by decide

/-- C10 (amended): the bundle comparison is total — returning either
no-change or the whole desired list — in every case except a non-empty
desired list paired with an absent current value, which raises a
`TypeError`. -/
theorem diff_complex_items_totality (w h : List Bundle) :
    diffComplexItems none none = .ok none
    ∧ diffComplexItems none (some h) = .ok none
    ∧ (diffComplexItems (some w) (some h) = .ok none
       ∨ diffComplexItems (some w) (some h) = .ok (some w))
    ∧ diffComplexItems (some []) none = .ok none
    ∧ (w ≠ [] → diffComplexItems (some w) none = .error .typeError) := by
  refine ⟨by decide, by simp [diffComplexItems], ?_, by decide, ?_⟩
  · cases hs : subsetPairs (toTuple w) (toTuple h)
    · exact Or.inr (by simp [diffComplexItems, hs])
    · exact Or.inl (by simp [diffComplexItems, hs])
  · intro hw
    simp [diffComplexItems, hw]

/-- C10 witness: the totality statement applied at a concrete non-empty
desired list with an absent current value. -/
theorem diff_complex_items_totality_witness :
    ([({ name := "b" } : Bundle)] ≠ [])
    ∧ diffComplexItems (some [({ name := "b" } : Bundle)]) none = .error .typeError :=
  ⟨by decide, (diff_complex_items_totality [{ name := "b" }] []).2.2.2.2 (by decide)⟩

/-- C1 (at the claim's failing input): with desired parent
`/Common/clientssl` and current parent `/Common/other`, the diffing run
raises nothing — `parent` is not in `Parameters.updatables`, so
`_update_changed_options` never invokes the `Difference.parent` raiser
(shown live in the third conjunct) and the run returns `changed = false`
with no device write; the parent difference is silently dropped. -/
theorem parent_difference_silently_ignored :
    "parent" ∉ updatables
    ∧ updateRun false { parent := some "/Common/clientssl" }
        { parent := some "/Common/other" } = { result := .ok false, modifyCalled := false }
    ∧ diffCompare { parent := some "/Common/clientssl" } { parent := some "/Common/other" }
        "parent" = .error (.f5ModuleError "The parent profile cannot be changed") :=
  ⟨by decide, by decide, by decide⟩

/-- C2 (at the claim's failing input): a legacy `enabled` token makes
the run append the deprecation warning to the desired-side `__warnings`
list (twice here: once while diffing, once while building the device
payload), but the returned result never carries a `__warnings` entry and
`_announce_deprecations` therefore emits nothing through the deprecation
side channel — on any run whatsoever. -/
theorem legacy_token_warning_never_surfaced :
    sysExecModule false { gui_setup := some (.str "enabled") }
        { gui_setup := some (.str "disabled") } =
      { changed := true
        resultDict := [("gui_setup", .val (.str "enabled")), ("changed", .flag true)]
        deprecationsEmitted := []
        modifyCalled := true
        wantWarnings := [deprecationWarning, deprecationWarning] }
    ∧ (∀ (cm : Bool) (w h : SysParams),
        (sysExecModule cm w h).deprecationsEmitted = []
        ∧ (sysExecModule cm w h).resultDict.lookup "__warnings" = none) :=
  ⟨by decide, fun cm w h => ⟨sysDeprecations_nil cm w h, sysResultDict_no_warnings cm w h⟩⟩

/-- The `cert_key_chain` loop fails with the matching descriptive
`F5ModuleError` at the first mismatched entry, provided the entries
before it are well-formed. -/
theorem certKeyChainDerive_error (partition : String) (pre : List Item) (bad : Item)
    (rest : List Item) (hpre : ∀ it ∈ pre, it.cert.isSome ∧ it.key.isSome)
    (hbad : (bad.key.isSome ∧ bad.cert = none) ∨ (bad.cert.isSome ∧ bad.key = none)) :
    ∃ msg, (msg = "When providing a 'key', you must also provide a 'cert'"
        ∨ msg = "When providing a 'cert', you must also provide a 'key'")
      ∧ certKeyChainDerive partition (pre ++ bad :: rest) = .error (.f5ModuleError msg) := by
  induction pre with
  | nil =>
    rcases hbad with ⟨hk, hc⟩ | ⟨hc, hk⟩
    · obtain ⟨k, hk⟩ := Option.isSome_iff_exists.mp hk
      exact ⟨_, Or.inl rfl, by simp [certKeyChainDerive, deriveItem, hk, hc]⟩
    · obtain ⟨c, hc⟩ := Option.isSome_iff_exists.mp hc
      exact ⟨_, Or.inr rfl, by simp [certKeyChainDerive, deriveItem, hk, hc]⟩
  | cons it pre ih =>
    obtain ⟨hc, hk⟩ := hpre it (List.mem_cons_self _ _)
    obtain ⟨c, hc⟩ := Option.isSome_iff_exists.mp hc
    obtain ⟨k, hk⟩ := Option.isSome_iff_exists.mp hk
    obtain ⟨msg, hm, hd⟩ := ih (fun x hx => hpre x (List.mem_cons_of_mem _ hx))
    exact ⟨msg, hm, by simp [certKeyChainDerive, deriveItem, hc, hk, hd]⟩

/-- C5: a bundle entry carrying `key` without `cert` (or `cert` without
`key`) makes the desired-state derivation fail with the descriptive
validation error, and the whole update run terminates with that error
before any device call. -/
theorem mismatched_bundle_entry_fails (w : ModuleParams) (h : ApiParams) (cm : Bool)
    (pre : List Item) (bad : Item) (rest : List Item)
    (hw : w.cert_key_chain = some (pre ++ bad :: rest))
    (hpre : ∀ it ∈ pre, it.cert.isSome ∧ it.key.isSome)
    (hbad : (bad.key.isSome ∧ bad.cert = none) ∨ (bad.cert.isSome ∧ bad.key = none)) :
    ∃ msg, (msg = "When providing a 'key', you must also provide a 'cert'"
        ∨ msg = "When providing a 'cert', you must also provide a 'key'")
      ∧ moduleCertKeyChain w = .error (.f5ModuleError msg)
      ∧ updateRun cm w h = { result := .error (.f5ModuleError msg), modifyCalled := false } := by
  obtain ⟨msg, hm, hd⟩ := certKeyChainDerive_error w.partition pre bad rest hpre hbad
  have hmod : moduleCertKeyChain w = .error (.f5ModuleError msg) := by
    simp [moduleCertKeyChain, hw, hd]
  refine ⟨msg, hm, hmod, ?_⟩
  have hchanges : updateChangedOptions w h = .error (.f5ModuleError msg) := by
    simp [updateChangedOptions, updatables, collectChanges, diffCompare, wantAttr, hmod]
  rw [updateRun, hchanges]

/-- C5 witness: a single entry with only a `key` fails the derivation and
the update run with the key-without-cert message and no device write. -/
theorem mismatched_bundle_entry_fails_witness :
    ∃ msg, (msg = "When providing a 'key', you must also provide a 'cert'"
        ∨ msg = "When providing a 'cert', you must also provide a 'key'")
      ∧ moduleCertKeyChain { cert_key_chain := some [{ key := some "k" }] } =
          .error (.f5ModuleError msg)
      ∧ updateRun false { cert_key_chain := some [{ key := some "k" }] } {} =
          { result := .error (.f5ModuleError msg), modifyCalled := false } :=
  mismatched_bundle_entry_fails _ {} false [] { key := some "k" } [] rfl
    (by intro it hit; simp at hit) (Or.inl (by decide))

/-- C6: when the current device state already equals the desired state on
every updatable field, the difference engine finds no change, the update
run reports `changed = false`, and no modify call is issued. -/
theorem idempotent_update (cm : Bool) (w : ModuleParams) (h : ApiParams)
    (h1 : wantAttr w "ciphers" = .ok (haveAttr h "ciphers"))
    (h2 : moduleCertKeyChain w = .ok (apiCertKeyChain h))
    (h3 : wantAttr w "ocsp_stapling" = .ok (haveAttr h "ocsp_stapling")) :
    updateRun cm w h = { result := .ok false, modifyCalled := false } := by
  have hchanges : updateChangedOptions w h = .ok [] := by
    simp [updateChangedOptions, updatables, collectChanges, diffCompare, h1, h2, h3,
      diffComplexItems_self]
  rw [updateRun, hchanges]
  rfl

/-- C6 witness: a device already carrying the desired ciphers yields
`changed = false` and no modify call, even outside check mode. -/
theorem idempotent_update_witness :
    updateRun false { ciphers := some "DEFAULT" } { ciphers := some "DEFAULT" } =
      { result := .ok false, modifyCalled := false } :=
  idempotent_update false { ciphers := some "DEFAULT" } { ciphers := some "DEFAULT" }
    (by decide) (by decide) (by decide)

/-- C7: in check mode, an existing resource whose diff is non-empty makes
the run report `changed = true` while issuing no device-mutating call, in
both modules (the update path's only mutator is the modify call). -/
theorem check_mode_no_device_write :
    (∀ (w : ModuleParams) (h : ApiParams) (cs : List (String × PayloadVal)),
        updateChangedOptions w h = .ok cs → cs ≠ [] →
        updateRun true w h = { result := .ok true, modifyCalled := false })
    ∧ (∀ w h : SysParams, (sysUpdateChangedOptions w h).1 ≠ [] →
        (sysExecModule true w h).changed = true
        ∧ (sysExecModule true w h).modifyCalled = false) := by
  constructor
  · intro w h cs hcs hne
    have hempty : cs.isEmpty = false := by
      cases cs with
      | nil => exact absurd rfl hne
      | cons a l => rfl
    rw [updateRun, hcs]
    simp [hempty]
  · intro w h hne
    have hempty : (sysUpdateChangedOptions w h).1.isEmpty = false := by
      cases hl : (sysUpdateChangedOptions w h).1 with
      | nil => exact absurd hl hne
      | cons a l => rfl
    have hchanged : (sysExecModule true w h).changed =
        !(sysUpdateChangedOptions w h).1.isEmpty := rfl
    have hmodify : (sysExecModule true w h).modifyCalled =
        ((!(sysUpdateChangedOptions w h).1.isEmpty) && !true) := rfl
    constructor
    · rw [hchanged, hempty]
      rfl
    · rw [hmodify, Bool.not_true, Bool.and_false]

/-- C7 witness: a pending ciphers change in check mode (client SSL
profile) and a pending gui_setup change in check mode (sys global):
changed is reported, nothing is written. -/
theorem check_mode_no_device_write_witness :
    updateRun true { ciphers := some "x" } {} = { result := .ok true, modifyCalled := false }
    ∧ ((sysExecModule true { gui_setup := some (.str "yes") } {}).changed = true
       ∧ (sysExecModule true { gui_setup := some (.str "yes") } {}).modifyCalled = false) :=
  ⟨check_mode_no_device_write.1 { ciphers := some "x" } {} [("ciphers", .str "x")]
      (by decide) (by decide),
   check_mode_no_device_write.2 { gui_setup := some (.str "yes") } {} (by decide)⟩

/-- C8: whenever creation sends a payload to the device's create call and
the user supplied no ciphers value, that payload carries
`ciphers = "DEFAULT"`. -/
theorem create_defaults_ciphers (w : ModuleParams) (p : List (String × PayloadVal))
    (hc : w.ciphers = none) (hp : (createRun false w).payload = some p) :
    ("ciphers", PayloadVal.str "DEFAULT") ∈ p := by
  cases hck : moduleCertKeyChain { w with ciphers := some "DEFAULT" } with
  | error e =>
    rw [show createRun false w = { result := .error e, payload := none } from by
      simp [createRun, hc, apiParams, hck]] at hp
    exact absurd hp (by simp)
  | ok ckc =>
    have hq : (createRun false w).payload =
        some (([("ciphers", some (PayloadVal.str "DEFAULT")),
                ("certKeyChain", ckc.map PayloadVal.bundles),
                ("ocspStapling", w.ocsp_stapling.map PayloadVal.val)] :
                 List (String × Option PayloadVal)).filterMap
              (fun q => q.2.map (fun v => (q.1, v)))) := by
      simp [createRun, hc, apiParams, hck]
    rw [hq] at hp
    obtain rfl := Option.some.inj hp
    simp [List.filterMap_cons]

/-- C8 witness: creating with every optional field unset sends exactly
`ciphers = "DEFAULT"`. -/
theorem create_defaults_ciphers_witness :
    ({} : ModuleParams).ciphers = none
    ∧ (createRun false {}).payload = some [("ciphers", PayloadVal.str "DEFAULT")]
    ∧ ("ciphers", PayloadVal.str "DEFAULT") ∈ [("ciphers", PayloadVal.str "DEFAULT")] :=
  ⟨rfl, by decide, create_defaults_ciphers {} _ rfl (by decide)⟩

/-- C9: the free-text `banner_text` goes through the same boolean-like
normalization as the on/off fields: the property is exactly
`_get_boolean_like_return_value` on the raw value (so it coincides with
`gui_setup` on equal raw input), truth-like tokens become `enabled`,
false-like tokens `disabled`, the legacy literals additionally append the
deprecation warning, and only other text passes through unchanged. -/
theorem banner_text_boolean_like_normalized :
    (∀ w : SysParams, sysWantAttr w "banner_text" =
      ((getBooleanLikeReturnValue w.banner_text).1.map Value.str,
       (getBooleanLikeReturnValue w.banner_text).2))
    ∧ (∀ w h : SysParams, w.banner_text = h.gui_setup →
        sysWantAttr w "banner_text" = sysWantAttr h "gui_setup")
    ∧ sysWantAttr { banner_text := some (.str "yes") } "banner_text" =
        (some (.str "enabled"), [])
    ∧ sysWantAttr { banner_text := some (.str "1") } "banner_text" =
        (some (.str "enabled"), [])
    ∧ sysWantAttr { banner_text := some (.bool true) } "banner_text" =
        (some (.str "enabled"), [])
    ∧ sysWantAttr { banner_text := some (.str "no") } "banner_text" =
        (some (.str "disabled"), [])
    ∧ sysWantAttr { banner_text := some (.str "enabled") } "banner_text" =
        (some (.str "enabled"), [deprecationWarning])
    ∧ sysWantAttr { banner_text := some (.str "Authorized access only") } "banner_text" =
        (some (.str "Authorized access only"), []) :=
  ⟨fun _ => rfl,
   fun _ _ hv => congrArg
     (fun v => ((getBooleanLikeReturnValue v).1.map Value.str, (getBooleanLikeReturnValue v).2))
     hv,
   by decide, by decide, by decide, by decide, by decide, by decide⟩

/-- C9 witness: a `banner_text` of `yes` is normalized exactly like a
`gui_setup` of `yes`. -/
theorem banner_text_boolean_like_normalized_witness :
    ({ banner_text := some (.str "yes") } : SysParams).banner_text =
      ({ gui_setup := some (.str "yes") } : SysParams).gui_setup
    ∧ sysWantAttr { banner_text := some (.str "yes") } "banner_text" =
        sysWantAttr { gui_setup := some (.str "yes") } "gui_setup" :=
  ⟨rfl, banner_text_boolean_like_normalized.2.1 { banner_text := some (.str "yes") }
    { gui_setup := some (.str "yes") } rfl⟩

end F5
